import Mathlib

/-!
Shallow embedding of the Poper movie-suggestion app (`src/src/App.jsx`).

Pure logic (the year filter, the candidate-title extraction) is translated
directly. The network-facing orchestration (`getAiSuggestions`,
`searchMoviesWithOMDb`, `handleMovieSuggestion`) is translated with the two
HTTP services modelled as oracles (`GeminiOutcome`, `OmdbOracle`) and with an
explicit trace of the metadata-API calls issued, so that properties about
"which calls happen" can be stated.
-/

namespace Poper

/-- An OMDb movie record with the fields the code reads:
`Response` ("True"/"False" status flag), `imdbID`, `Title`, `Year`, `Poster`. -/
structure MovieData where
  Response : String
  imdbID : String
  Title : String
  Year : String
  Poster : String
deriving DecidableEq

/-- An OMDb keyword-search response body: the status flag and the optional
`Search` array (`none` models the field being absent/undefined). -/
structure SearchData where
  Response : String
  Search : Option (List MovieData)
deriving DecidableEq

/-- Outcome of one `fetch` + `json()` round trip: the fetch (or body parse)
throwing, a non-success HTTP status (`response.ok` false), or a parsed body. -/
inductive FetchOutcome (α : Type) where
  | throwNet : FetchOutcome α
  | notOk : FetchOutcome α
  | ok : α → FetchOutcome α
deriving DecidableEq

/-- Oracle for the OMDb metadata API: exact-title lookup (`t=`), keyword
search (`s=`), and id-based detail lookup (`i=`). -/
structure OmdbOracle where
  byTitle : String → FetchOutcome MovieData
  search : String → FetchOutcome SearchData
  byId : String → FetchOutcome MovieData

/-- Outcome of the single Gemini `fetch`: network throw, non-success status,
or a body whose optional-chained `candidates[0].content.parts[0].text`
extraction gives `none` (path absent) or `some` string. -/
inductive GeminiOutcome where
  | throwNet : GeminiOutcome
  | notOk : GeminiOutcome
  | ok : Option String → GeminiOutcome
deriving DecidableEq

/-- One metadata-API call, as recorded in the trace. -/
inductive Call where
  | titleLookup : String → Call
  | keywordSearch : String → Call
  | detailLookup : String → Call
deriving DecidableEq

/-- The whitespace class used by JS `String.prototype.trim` and `parseInt`
(space, tab, line terminators, vertical tab, form feed, NBSP). -/
def jsStrWhitespace (c : Char) : Bool :=
  c == ' ' || c == '\t' || c == '\n' || c == '\r' ||
    c == Char.ofNat 11 || c == Char.ofNat 12 || c == Char.ofNat 160

/-- JS `String.prototype.trim`: drop leading and trailing whitespace. -/
def jsTrim (s : String) : String :=
  String.mk (((s.data.dropWhile jsStrWhitespace).reverse.dropWhile jsStrWhitespace).reverse)

/-- Numeric value of a hexadecimal digit character, if it is one. -/
def hexVal (c : Char) : Option Nat :=
  if c.isDigit then some (c.toNat - '0'.toNat)
  else if 'a' ≤ c ∧ c ≤ 'f' then some (c.toNat - 'a'.toNat + 10)
  else if 'A' ≤ c ∧ c ≤ 'F' then some (c.toNat - 'A'.toNat + 10)
  else none

/-- Whether a character is a hexadecimal digit. -/
def isHexDig (c : Char) : Bool :=
  (hexVal c).isSome

/-- Value of a maximal run of decimal digits. -/
def decDigitsVal (ds : List Char) : Nat :=
  ds.foldl (fun a c => a * 10 + (c.toNat - '0'.toNat)) 0

/-- Value of a maximal run of hexadecimal digits. -/
def hexDigitsVal (ds : List Char) : Nat :=
  ds.foldl (fun a c => a * 16 + (hexVal c).getD 0) 0

/-- Decimal branch of JS `parseInt`: longest digit prefix, `none` if empty. -/
def parseIntDigits (sgn : Int) (cs : List Char) : Option Int :=
  let ds := cs.takeWhile Char.isDigit
  if ds.isEmpty then none else some (sgn * (decDigitsVal ds : Nat))

/-- Body of JS `parseInt` after sign handling: a `0x`/`0X` prefix selects
radix 16, otherwise radix 10; `none` models `NaN` (no digits). -/
def parseIntBody (sgn : Int) (cs : List Char) : Option Int :=
  match cs with
  | '0' :: c :: rest =>
    if c = 'x' ∨ c = 'X' then
      let ds := rest.takeWhile isHexDig
      if ds.isEmpty then none else some (sgn * (hexDigitsVal ds : Nat))
    else parseIntDigits sgn cs
  | _ => parseIntDigits sgn cs

/-- JS `parseInt(string)` with no radix argument: skip leading whitespace,
optional sign, then hexadecimal (after `0x`) or decimal digits; `none`
models `NaN`. -/
def parseIntJS (s : String) : Option Int :=
  let cs := s.data.dropWhile jsStrWhitespace
  match cs with
  | '-' :: rest => parseIntBody (-1) rest
  | '+' :: rest => parseIntBody 1 rest
  | _ => parseIntBody 1 cs

/-- The `switch (yearFilter)` of `filterMoviesByYear` (lines 195-208),
reached only after `movieYear` parsed (the `default` case returns true). -/
def yearMatches (yearFilter : String) (movieYear : Int) : Bool :=
  if yearFilter = "2025" then decide (movieYear = 2025)
  else if yearFilter = "2024" then decide (movieYear = 2024)
  else if yearFilter = "2023" then decide (movieYear = 2023)
  else if yearFilter = "2022" then decide (movieYear = 2022)
  else if yearFilter = "2021" then decide (movieYear = 2021)
  else if yearFilter = "2020" then decide (movieYear = 2020)
  else if yearFilter = "2010s" then decide (movieYear ≥ 2010) && decide (movieYear ≤ 2019)
  else if yearFilter = "2000s" then decide (movieYear ≥ 2000) && decide (movieYear ≤ 2009)
  else if yearFilter = "1990s" then decide (movieYear ≥ 1990) && decide (movieYear ≤ 1999)
  else if yearFilter = "1980s" then decide (movieYear ≥ 1980) && decide (movieYear ≤ 1989)
  else if yearFilter = "classic" then decide (movieYear < 1980)
  else true

/-- `filterMoviesByYear` (lines 189-210): identity for "all", otherwise a
filter that excludes records whose `Year` fails `parseInt` (`isNaN` check)
and applies the switch to the parsed year. -/
def filterMoviesByYear (movies : List MovieData) (yearFilter : String) : List MovieData :=
  if yearFilter = "all" then movies
  else
    movies.filter fun movie =>
      match parseIntJS movie.Year with
      | none => false
      | some movieYear => yearMatches yearFilter movieYear

/-- The year-bucket values offered by the UI's year selector. -/
def recognizedBuckets : List String :=
  ["all", "2025", "2024", "2023", "2022", "2021", "2020",
   "2010s", "2000s", "1990s", "1980s", "classic"]

/-- Modelled from the spec: bucket semantics of §4.2 — exact buckets match
equality, decade buckets match an inclusive range, "classic" matches
year < 1980. -/
def bucketSpec (bucket : String) (y : Int) : Bool :=
  if bucket = "2025" then decide (y = 2025)
  else if bucket = "2024" then decide (y = 2024)
  else if bucket = "2023" then decide (y = 2023)
  else if bucket = "2022" then decide (y = 2022)
  else if bucket = "2021" then decide (y = 2021)
  else if bucket = "2020" then decide (y = 2020)
  else if bucket = "2010s" then decide (2010 ≤ y) && decide (y ≤ 2019)
  else if bucket = "2000s" then decide (2000 ≤ y) && decide (y ≤ 2009)
  else if bucket = "1990s" then decide (1990 ≤ y) && decide (y ≤ 1999)
  else if bucket = "1980s" then decide (1980 ≤ y) && decide (y ≤ 1989)
  else if bucket = "classic" then decide (y < 1980)
  else true

/-- Error message thrown when the Gemini key is missing (line 68). -/
def geminiKeyError : String :=
  "Gemini API key is missing. Please check your environment variables."

/-- Error message for a non-success Gemini HTTP status (line 92). -/
def geminiHttpError : String :=
  "Failed to get suggestions from the AI service."

/-- Error message for an empty/absent Gemini text payload (line 97). -/
def geminiEmptyError : String :=
  "The AI returned an empty response. Please try again."

/-- Message of the TypeError a failed `fetch` rejects with. -/
def jsFetchError : String :=
  "TypeError: Failed to fetch"

/-- Message of the TypeError raised by reading a property of undefined. -/
def jsTypeError : String :=
  "TypeError: Cannot read properties of undefined"

/-- Error message thrown when the OMDb key is missing (line 110). -/
def omdbKeyError : String :=
  "OMDB API key is missing. Please check your environment variables."

/-- Error message rethrown by the catch block of `searchMoviesWithOMDb`
(line 163). -/
def genericSearchError : String :=
  "Failed to search for movies. Please try again later."

/-- Validation message for blank input (line 34). -/
def validationError : String :=
  "Please describe your movie mood or scenario."

/-- Message shown when the pipeline succeeds with zero movies (line 52). -/
def noMatchesError : String :=
  "Couldn't find any movies matching your request. Please try a different description."

/-- Line 99: `text.split(',').map(t => t.trim()).filter(Boolean)`. -/
def extractTitles (text : String) : List String :=
  ((text.splitOn ",").map jsTrim).filter fun t => t != ""

/-- Modelled from the spec: "Split the returned text on commas, trim, drop
empties → ordered sequence of CandidateTitle", written as a right fold that
keeps order and duplicates. -/
def specCandidateTitles (text : String) : List String :=
  (text.splitOn ",").foldr
    (fun piece acc =>
      let p := jsTrim piece
      if p = "" then acc else p :: acc) []

/-- `getAiSuggestions` (lines 66-100): key check, one Gemini call, HTTP
status check, empty-text check, then title extraction. `hasKey` is whether
`GEMINI_API_KEY` is set. -/
def getAiSuggestions (hasKey : Bool) (g : GeminiOutcome) : Except String (List String) :=
  if hasKey = false then Except.error geminiKeyError
  else
    match g with
    | GeminiOutcome.throwNet => Except.error jsFetchError
    | GeminiOutcome.notOk => Except.error geminiHttpError
    | GeminiOutcome.ok none => Except.error geminiEmptyError
    | GeminiOutcome.ok (some t) =>
      if t = "" then Except.error geminiEmptyError
      else Except.ok (extractTitles t)

/-- Body of one iteration of the per-title loop (lines 115-129): a network
throw or a non-success status is swallowed (`continue`); a body with status
"True" whose `imdbID` is unseen is kept and its id added to the seen-set. -/
def titleStep (o : OmdbOracle) (title : String) (seen : List String)
    (results : List MovieData) : List String × List MovieData :=
  match o.byTitle title with
  | FetchOutcome.throwNet => (seen, results)
  | FetchOutcome.notOk => (seen, results)
  | FetchOutcome.ok data =>
    if data.Response = "True" ∧ data.imdbID ∉ seen then
      (data.imdbID :: seen, results ++ [data])
    else (seen, results)

/-- The per-title loop of `searchMoviesWithOMDb` (lines 114-130): one
exact-title lookup per title, iterating `titleStep`. Returns the final
(seen-set, kept results, calls issued). -/
def titleLoop (o : OmdbOracle) : List String → List String → List MovieData →
    List String × List MovieData × List Call
  | [], seen, results => (seen, results, [])
  | title :: rest, seen, results =>
    let st := titleStep o title seen results
    let next := titleLoop o rest st.1 st.2
    (next.1, next.2.1, Call.titleLookup title :: next.2.2)

/-- Body of the non-skipped case of the fallback loop (lines 142-153):
fetch full details by the hit's id; failures and non-"True" bodies are
swallowed; a detail record with status "True" is added under the detail
record's own id. -/
def detailStep (o : OmdbOracle) (hit : MovieData) (seen : List String)
    (results : List MovieData) : List String × List MovieData :=
  match o.byId hit.imdbID with
  | FetchOutcome.throwNet => (seen, results)
  | FetchOutcome.notOk => (seen, results)
  | FetchOutcome.ok d =>
    if d.Response = "True" then (d.imdbID :: seen, results ++ [d])
    else (seen, results)

/-- The fallback detail loop (lines 140-154): skip hits whose id is already
seen (line 141), otherwise run `detailStep`, which issues one detail call. -/
def detailLoop (o : OmdbOracle) : List MovieData → List String → List MovieData →
    List String × List MovieData × List Call
  | [], seen, results => (seen, results, [])
  | hit :: rest, seen, results =>
    if hit.imdbID ∈ seen then
      detailLoop o rest seen results
    else
      let st := detailStep o hit seen results
      let next := detailLoop o rest st.1 st.2
      (next.1, next.2.1, Call.detailLookup hit.imdbID :: next.2.2)

/-- Outcome of the try block of `searchMoviesWithOMDb`: an executed `return`,
a raised exception, or completing the block without either (which the
control flow of the source never does, since the block ends in `return`). -/
inductive TryOutcome where
  | retrn : List MovieData → TryOutcome
  | thrown : String → TryOutcome
  | fallthrough : List MovieData → List String → TryOutcome

/-- The try block of `searchMoviesWithOMDb` (lines 107-159): key check,
per-title loop, keyword fallback when zero records were kept, then
`return filterMoviesByYear(results.filter(poster present), filters.year)`. -/
def tryBlockFull (hasKey : Bool) (o : OmdbOracle) (titles : List String)
    (userInput : String) (yearFilter : String) : TryOutcome × List Call :=
  if hasKey = false then (TryOutcome.thrown omdbKeyError, [])
  else
    let st := titleLoop o titles [] []
    let seen1 := st.1
    let results1 := st.2.1
    let calls1 := st.2.2
    if results1.length = 0 then
      match o.search userInput with
      | FetchOutcome.throwNet =>
        (TryOutcome.thrown jsFetchError, calls1 ++ [Call.keywordSearch userInput])
      | FetchOutcome.notOk =>
        (TryOutcome.retrn
          (filterMoviesByYear (results1.filter fun m => m.Poster != "N/A") yearFilter),
         calls1 ++ [Call.keywordSearch userInput])
      | FetchOutcome.ok fd =>
        if fd.Response = "True" then
          match fd.Search with
          | some hits =>
            let st2 := detailLoop o hits seen1 results1
            (TryOutcome.retrn
              (filterMoviesByYear (st2.2.1.filter fun m => m.Poster != "N/A") yearFilter),
             calls1 ++ Call.keywordSearch userInput :: st2.2.2)
          | none =>
            (TryOutcome.retrn
              (filterMoviesByYear (results1.filter fun m => m.Poster != "N/A") yearFilter),
             calls1 ++ [Call.keywordSearch userInput])
        else
          (TryOutcome.retrn
            (filterMoviesByYear (results1.filter fun m => m.Poster != "N/A") yearFilter),
           calls1 ++ [Call.keywordSearch userInput])
    else
      (TryOutcome.retrn
        (filterMoviesByYear (results1.filter fun m => m.Poster != "N/A") yearFilter),
       calls1)

/-- The `results.forEach` of the trailing block (lines 167-172): rebuild
`validMovies` with status, poster and dedup checks against the seen-set. -/
def deadForEach : List MovieData → List String → List MovieData →
    List String × List MovieData
  | [], seen, valid => (seen, valid)
  | m :: rest, seen, valid =>
    if m.Response = "True" ∧ m.Poster ≠ "N/A" ∧ m.imdbID ∉ seen then
      deadForEach rest (m.imdbID :: seen) (valid ++ [m])
    else deadForEach rest seen valid

/-- The trailing block after the catch (lines 165-185), translated so that
the claim of its unreachability can be stated. An un-checked keyword fetch,
then `fallbackData.Search.filter(...)` (a TypeError when `Search` is
absent); a non-success status is approximated as a not-"True" body since
the source reads the body without checking `ok` here. -/
def deadBlock (o : OmdbOracle) (results : List MovieData) (seen : List String)
    (userInput : String) (yearFilter : String) (calls : List Call) :
    Except String (List MovieData) × List Call :=
  let v := deadForEach results seen []
  let validMovies := v.2
  if validMovies.length = 0 then
    match o.search userInput with
    | FetchOutcome.throwNet =>
      (Except.error jsFetchError, calls ++ [Call.keywordSearch userInput])
    | FetchOutcome.notOk =>
      (Except.ok (filterMoviesByYear validMovies yearFilter),
       calls ++ [Call.keywordSearch userInput])
    | FetchOutcome.ok fd =>
      if fd.Response = "True" then
        match fd.Search with
        | none => (Except.error jsTypeError, calls ++ [Call.keywordSearch userInput])
        | some hits =>
          (Except.ok (filterMoviesByYear (hits.filter fun m => m.Poster != "N/A") yearFilter),
           calls ++ [Call.keywordSearch userInput])
      else
        (Except.ok (filterMoviesByYear validMovies yearFilter),
         calls ++ [Call.keywordSearch userInput])
  else
    (Except.ok (filterMoviesByYear validMovies yearFilter), calls)

/-- `searchMoviesWithOMDb` (lines 103-186) in full: the try block, the catch
that rethrows the generic message, and — were the try block ever to fall
through — the trailing block. `hasKey` is whether `OMDB_API_KEY` is set. -/
def searchMoviesWithOMDb (hasKey : Bool) (o : OmdbOracle) (titles : List String)
    (userInput : String) (yearFilter : String) :
    Except String (List MovieData) × List Call :=
  match tryBlockFull hasKey o titles userInput yearFilter with
  | (TryOutcome.retrn v, calls) => (Except.ok v, calls)
  | (TryOutcome.thrown _, calls) => (Except.error genericSearchError, calls)
  | (TryOutcome.fallthrough results seen, calls) =>
    deadBlock o results seen userInput yearFilter calls

/-- `searchMoviesWithOMDb` with the trailing block (lines 165-185) deleted:
the direct translation of lines 103-163 alone. -/
def searchMoviesWithOMDbTruncated (hasKey : Bool) (o : OmdbOracle) (titles : List String)
    (userInput : String) (yearFilter : String) :
    Except String (List MovieData) × List Call :=
  if hasKey = false then (Except.error genericSearchError, [])
  else
    let st := titleLoop o titles [] []
    let seen1 := st.1
    let results1 := st.2.1
    let calls1 := st.2.2
    if results1.length = 0 then
      match o.search userInput with
      | FetchOutcome.throwNet =>
        (Except.error genericSearchError, calls1 ++ [Call.keywordSearch userInput])
      | FetchOutcome.notOk =>
        (Except.ok (filterMoviesByYear (results1.filter fun m => m.Poster != "N/A") yearFilter),
         calls1 ++ [Call.keywordSearch userInput])
      | FetchOutcome.ok fd =>
        if fd.Response = "True" then
          match fd.Search with
          | some hits =>
            let st2 := detailLoop o hits seen1 results1
            (Except.ok (filterMoviesByYear (st2.2.1.filter fun m => m.Poster != "N/A") yearFilter),
             calls1 ++ Call.keywordSearch userInput :: st2.2.2)
          | none =>
            (Except.ok (filterMoviesByYear (results1.filter fun m => m.Poster != "N/A") yearFilter),
             calls1 ++ [Call.keywordSearch userInput])
        else
          (Except.ok (filterMoviesByYear (results1.filter fun m => m.Poster != "N/A") yearFilter),
           calls1 ++ [Call.keywordSearch userInput])
    else
      (Except.ok (filterMoviesByYear (results1.filter fun m => m.Poster != "N/A") yearFilter),
       calls1)

/-- The filter triple of the UI. -/
structure Filters where
  language : String
  genre : String
  year : String
deriving DecidableEq

/-- The component state touched by `handleMovieSuggestion`. -/
structure AppState where
  userInput : String
  filters : Filters
  movies : List MovieData
  isLoading : Bool
  error : Option String
deriving DecidableEq

/-- What one run of `handleMovieSuggestion` did on the network: whether the
Gemini fetch was issued, whether `searchMoviesWithOMDb` was invoked, and
the metadata-API calls issued. -/
structure RunTrace where
  geminiCalled : Bool
  searchInvoked : Bool
  omdbCalls : List Call
deriving DecidableEq

/-- `handleMovieSuggestion` (lines 30-61): blank-input validation, clearing
of error/movies and setting of the loading flag, the two-step pipeline, the
no-matches message, and the catch that surfaces any thrown message. The
final `setIsLoading(false)` of the `finally` is applied on every non-return
path. -/
def handleMovieSuggestion (s : AppState) (geminiKey omdbKey : Bool)
    (g : GeminiOutcome) (o : OmdbOracle) : AppState × RunTrace :=
  if jsTrim s.userInput = "" then
    ({ s with error := some validationError },
     { geminiCalled := false, searchInvoked := false, omdbCalls := [] })
  else
    let s1 : AppState := { s with isLoading := true, error := none, movies := [] }
    match getAiSuggestions geminiKey g with
    | Except.error msg =>
      ({ s1 with error := some msg, isLoading := false },
       { geminiCalled := geminiKey, searchInvoked := false, omdbCalls := [] })
    | Except.ok titles =>
      let out := searchMoviesWithOMDb omdbKey o titles s.userInput s.filters.year
      match out.1 with
      | Except.error msg =>
        ({ s1 with error := some msg, isLoading := false },
         { geminiCalled := true, searchInvoked := true, omdbCalls := out.2 })
      | Except.ok ms =>
        if ms.length > 0 then
          ({ s1 with movies := ms, isLoading := false },
           { geminiCalled := true, searchInvoked := true, omdbCalls := out.2 })
        else
          ({ s1 with error := some noMatchesError, isLoading := false },
           { geminiCalled := true, searchInvoked := true, omdbCalls := out.2 })

/-- Number of keyword-search calls in a trace. -/
def keywordCount (calls : List Call) : Nat :=
  calls.countP fun c =>
    match c with
    | Call.keywordSearch _ => true
    | _ => false

/-- Modelled from the spec: step 6's call pattern — "for each hit not
already seen, fetch full details by id"; the seen-set accumulates, growing
by each kept detail record's id. Returns the ids queried by detail
lookups, in order. -/
def fallbackSpecCalls (o : OmdbOracle) : List MovieData → List String → List String
  | [], _ => []
  | hit :: rest, seen =>
    if hit.imdbID ∈ seen then fallbackSpecCalls o rest seen
    else
      hit.imdbID ::
        fallbackSpecCalls o rest
          (match o.byId hit.imdbID with
           | FetchOutcome.ok d => if d.Response = "True" then d.imdbID :: seen else seen
           | _ => seen)

/-- Modelled from the amended claim: the records the fallback keeps — for
each hit whose id is not already seen, a resolvable ("True") detail record
is kept unconditionally, the seen-set growing by the detail record's own
id; no keep-time check of the detail record's id against the seen-set. -/
def fallbackSpecKept (o : OmdbOracle) : List MovieData → List String → List MovieData
  | [], _ => []
  | hit :: rest, seen =>
    if hit.imdbID ∈ seen then fallbackSpecKept o rest seen
    else
      match o.byId hit.imdbID with
      | FetchOutcome.ok d =>
        if d.Response = "True" then d :: fallbackSpecKept o rest (d.imdbID :: seen)
        else fallbackSpecKept o rest seen
      | _ => fallbackSpecKept o rest seen

/-- The invariant claimed of a successful search result: pairwise-distinct
ids and no unavailable poster. -/
def resultOkInvariant (r : Except String (List MovieData)) : Prop :=
  ∀ l, r = Except.ok l →
    (l.map fun m => m.imdbID).Nodup ∧ ∀ m ∈ l, m.Poster ≠ "N/A"

/-- An error propagated out of the suggestion pipeline: either the Gemini
step threw, or it succeeded and the OMDb step threw. -/
def pipelineError (s : AppState) (geminiKey omdbKey : Bool)
    (g : GeminiOutcome) (o : OmdbOracle) : Prop :=
  (∃ m, getAiSuggestions geminiKey g = Except.error m) ∨
  (∃ ts, getAiSuggestions geminiKey g = Except.ok ts ∧
    ∃ m, (searchMoviesWithOMDb omdbKey o ts s.userInput s.filters.year).1 = Except.error m)

/-- A record whose `Year` does not parse as an integer. -/
def weirdMovie : MovieData :=
  { Response := "True", imdbID := "tt0000001", Title := "NoYear", Year := "abc",
    Poster := "poster.jpg" }

/-- A record from 2012. -/
def m2012 : MovieData :=
  { Response := "True", imdbID := "tt2012", Title := "Twelve", Year := "2012",
    Poster := "poster.jpg" }

/-- A record from 1979. -/
def m1979 : MovieData :=
  { Response := "True", imdbID := "tt1979", Title := "Seventy", Year := "1979",
    Poster := "poster.jpg" }

/-- A keyword-search hit with id "ttA". -/
def hitA : MovieData :=
  { Response := "True", imdbID := "ttA", Title := "A", Year := "2001", Poster := "pa" }

/-- A keyword-search hit with id "ttB". -/
def hitB : MovieData :=
  { Response := "True", imdbID := "ttB", Title := "B", Year := "2001", Poster := "pb" }

/-- A detail record whose id differs from both hits it is returned for. -/
def dupDetail : MovieData :=
  { Response := "True", imdbID := "ttX", Title := "Dup", Year := "2001", Poster := "px" }

/-- An OMDb oracle whose title lookups fail, whose keyword search returns the
two hits, and whose detail lookup answers every id with the same record. -/
def cexOracle : OmdbOracle where
  byTitle := fun _ => FetchOutcome.notOk
  search := fun _ => FetchOutcome.ok { Response := "True", Search := some [hitA, hitB] }
  byId := fun _ => FetchOutcome.ok dupDetail

/-- An OMDb oracle on which every fetch throws. -/
def nullOracle : OmdbOracle where
  byTitle := fun _ => FetchOutcome.throwNet
  search := fun _ => FetchOutcome.throwNet
  byId := fun _ => FetchOutcome.throwNet

/-- The record returned by `echoOracle` for every exact-title lookup. -/
def recZ : MovieData :=
  { Response := "True", imdbID := "ttZ", Title := "Z", Year := "2000", Poster := "zp" }

/-- An OMDb oracle whose detail lookups echo the queried id. -/
def echoOracle : OmdbOracle where
  byTitle := fun _ => FetchOutcome.ok recZ
  search := fun _ => FetchOutcome.notOk
  byId := fun i =>
    FetchOutcome.ok { Response := "True", imdbID := i, Title := "Echo", Year := "2000",
                      Poster := "ep" }

/-- A state with non-blank input and no movies. -/
def stateHappy : AppState :=
  { userInput := "happy", filters := { language := "all", genre := "all", year := "all" },
    movies := [], isLoading := false, error := none }

/-- A state with non-blank input and a non-empty movie list already shown. -/
def statePrior : AppState :=
  { userInput := "x", filters := { language := "all", genre := "all", year := "all" },
    movies := [m2012], isLoading := false, error := none }

/-- A state whose input is whitespace-only, with movies shown and the
loading flag set. -/
def stateBlank : AppState :=
  { userInput := " \t ", filters := { language := "all", genre := "all", year := "all" },
    movies := [m2012], isLoading := true, error := none }

/-- The year filter never adds records: its output is a sublist of its input. -/
theorem filterMoviesByYear_sublist (ms : List MovieData) (yf : String) :
    List.Sublist (filterMoviesByYear ms yf) ms := by
  unfold filterMoviesByYear
  split
  · exact List.Sublist.refl ms
  · exact List.filter_sublist ms

/-- C2: for every record list and recognized year bucket, `filterMoviesByYear`
keeps exactly the records whose year parses and satisfies the bucket
predicate of the spec ("all" being the identity). -/
theorem yearFilter_bucket_semantics (ms : List MovieData) (b : String)
    (hb : b ∈ recognizedBuckets) :
    (b = "all" → filterMoviesByYear ms b = ms) ∧
    (b ≠ "all" → filterMoviesByYear ms b =
      ms.filter fun m =>
        match parseIntJS m.Year with
        | none => false
        | some y => bucketSpec b y) := by
  simp only [recognizedBuckets, List.mem_cons, List.not_mem_nil, or_false] at hb
  rcases hb with rfl | rfl | rfl | rfl | rfl | rfl | rfl | rfl | rfl | rfl | rfl | rfl
  · exact ⟨fun _ => by simp [filterMoviesByYear], fun hne => absurd rfl hne⟩
  all_goals
    refine ⟨fun hall => absurd hall (by decide), fun _ => ?_⟩
  all_goals
    unfold filterMoviesByYear
  all_goals
    rw [if_neg (by decide)]
  all_goals
    refine List.filter_congr fun m _ => ?_
  all_goals
    rcases hp : parseIntJS m.Year with _ | y <;>
      simp [yearMatches, bucketSpec, ge_iff_le]

/-- C2 witness: the "2010s" bucket on a concrete two-record list. -/
theorem yearFilter_bucket_semantics_witness :
    filterMoviesByYear [m2012, m1979] "2010s" =
      [m2012, m1979].filter (fun m =>
        match parseIntJS m.Year with
        | none => false
        | some y => bucketSpec "2010s" y) :=
  (yearFilter_bucket_semantics [m2012, m1979] "2010s" (by decide)).2 (by decide)

/-- C5 counterexample: for the unrecognized bucket "recent", a record whose
year does not parse is dropped, so the list does not pass through unchanged. -/
theorem unrecognizedBucket_counterexample :
    filterMoviesByYear [weirdMovie] "recent" ≠ [weirdMovie] := by
  decide

/-- C5 amended: for every unrecognized bucket, `filterMoviesByYear` keeps
exactly the records whose year parses as an integer; records whose year
fails to parse are excluded. -/
theorem unrecognizedBucket_keeps_parseable (ms : List MovieData) (b : String)
    (hb : b ∉ recognizedBuckets) :
    filterMoviesByYear ms b = ms.filter fun m => (parseIntJS m.Year).isSome := by
  simp only [recognizedBuckets, List.mem_cons, List.not_mem_nil, or_false, not_or] at hb
  obtain ⟨h0, h1, h2, h3, h4, h5, h6, h7, h8, h9, h10, h11⟩ := hb
  unfold filterMoviesByYear
  rw [if_neg h0]
  refine List.filter_congr fun m _ => ?_
  rcases hp : parseIntJS m.Year with _ | y <;>
    simp [yearMatches, h1, h2, h3, h4, h5, h6, h7, h8, h9, h10, h11]

/-- C5 amended witness: the unrecognized bucket "recent" on a concrete list
with one unparseable and one parseable year. -/
theorem unrecognizedBucket_keeps_parseable_witness :
    filterMoviesByYear [weirdMovie, m2012] "recent" =
      [weirdMovie, m2012].filter (fun m => (parseIntJS m.Year).isSome) :=
  unrecognizedBucket_keeps_parseable [weirdMovie, m2012] "recent" (by decide)

/-- C8: applying the year filter twice with the same bucket equals applying
it once, for every list and every bucket value. -/
theorem yearFilter_idempotent (ms : List MovieData) (b : String) :
    filterMoviesByYear (filterMoviesByYear ms b) b = filterMoviesByYear ms b := by
  by_cases hb : b = "all"
  · simp [filterMoviesByYear, hb]
  · simp only [filterMoviesByYear, if_neg hb, List.filter_filter]
    refine List.filter_congr fun m _ => ?_
    rcases hp : parseIntJS m.Year with _ | y <;> simp [hp]

/-- Splitting on commas, trimming and filtering equals the spec's fold. -/
theorem map_filter_eq_foldr (l : List String) :
    ((l.map jsTrim).filter fun t => t != "") =
      l.foldr (fun piece acc =>
        let p := jsTrim piece
        if p = "" then acc else p :: acc) [] := by
  induction l with
  | nil => rfl
  | cons x xs ih =>
    simp only [List.map_cons, List.foldr_cons, ← ih, List.filter_cons]
    by_cases hx : jsTrim x = "" <;> simp [hx]

/-- C6: the candidate-title extraction of `getAiSuggestions` equals the
spec's description — split on commas, trim each piece, drop empty pieces,
preserving order and duplicates. -/
theorem extractTitles_eq_spec (text : String) :
    extractTitles text = specCandidateTitles text := by
  unfold extractTitles specCandidateTitles
  exact map_filter_eq_foldr _

/-- The try block always exits through its `return` or through an exception,
so the full function coincides with its truncation at line 163. -/
theorem search_eq_trunc (k : Bool) (o : OmdbOracle) (titles : List String)
    (userInput yearFilter : String) :
    searchMoviesWithOMDb k o titles userInput yearFilter =
      searchMoviesWithOMDbTruncated k o titles userInput yearFilter := by
  unfold searchMoviesWithOMDb searchMoviesWithOMDbTruncated tryBlockFull
  by_cases hk : k = false
  · simp [hk]
  · simp only [if_neg hk]
    by_cases hl : (titleLoop o titles [] []).2.1.length = 0
    · simp only [if_pos hl]
      rcases hs : o.search userInput with _ | _ | fd <;> simp only [hs]
      by_cases hr : fd.Response = "True"
      · simp only [if_pos hr]
        rcases fd.Search with _ | hits <;> rfl
      · simp only [if_neg hr]
    · simp only [if_neg hl]

/-- C9: the code after the `return` at line 159 (the trailing block, lines
165-185) is unreachable: `searchMoviesWithOMDb` is extensionally equal to
the same function with that block deleted. -/
theorem searchMoviesWithOMDb_dead_code (k : Bool) (o : OmdbOracle) (titles : List String)
    (userInput yearFilter : String) :
    searchMoviesWithOMDb k o titles userInput yearFilter =
      searchMoviesWithOMDbTruncated k o titles userInput yearFilter :=
  search_eq_trunc k o titles userInput yearFilter

/-- One title-loop step preserves the dedup invariant: kept ids are distinct
and all of them are in the seen-set. -/
theorem titleStep_inv (o : OmdbOracle) (t : String) (seen : List String)
    (res : List MovieData)
    (h1 : (res.map fun m => m.imdbID).Nodup)
    (h2 : ∀ m ∈ res, m.imdbID ∈ seen) :
    ((titleStep o t seen res).2.map fun m => m.imdbID).Nodup ∧
      ∀ m ∈ (titleStep o t seen res).2, m.imdbID ∈ (titleStep o t seen res).1 := by
  rcases hb : o.byTitle t with _ | _ | data
  · simp only [titleStep, hb]
    exact ⟨h1, h2⟩
  · simp only [titleStep, hb]
    exact ⟨h1, h2⟩
  · simp only [titleStep, hb]
    by_cases hc : data.Response = "True" ∧ data.imdbID ∉ seen
    · rw [if_pos hc]
      constructor
      · simp only [List.map_append, List.map_cons, List.map_nil]
        rw [List.nodup_append]
        refine ⟨h1, List.nodup_singleton _, ?_⟩
        intro a ha hmem
        simp only [List.mem_singleton] at hmem
        subst hmem
        obtain ⟨m, hm, hmi⟩ := List.mem_map.1 ha
        exact hc.2 (hmi ▸ h2 m hm)
      · intro m hm
        rcases List.mem_append.1 hm with hm | hm
        · exact List.mem_cons_of_mem _ (h2 m hm)
        · simp only [List.mem_singleton] at hm
          subst hm
          exact List.mem_cons_self _ _
    · rw [if_neg hc]
      exact ⟨h1, h2⟩

/-- The title loop preserves the dedup invariant. -/
theorem titleLoop_inv (o : OmdbOracle) (ts : List String) :
    ∀ (seen : List String) (res : List MovieData),
      (res.map fun m => m.imdbID).Nodup →
      (∀ m ∈ res, m.imdbID ∈ seen) →
      ((titleLoop o ts seen res).2.1.map fun m => m.imdbID).Nodup ∧
        ∀ m ∈ (titleLoop o ts seen res).2.1,
          m.imdbID ∈ (titleLoop o ts seen res).1 := by
  induction ts with
  | nil =>
    intro seen res h1 h2
    exact ⟨h1, h2⟩
  | cons t rest ih =>
    intro seen res h1 h2
    have hs := titleStep_inv o t seen res h1 h2
    have hr := ih (titleStep o t seen res).1 (titleStep o t seen res).2 hs.1 hs.2
    simpa [titleLoop] using hr

/-- One non-skipped fallback step preserves the dedup invariant, provided
the detail lookup echoes the queried id. -/
theorem detailStep_inv (o : OmdbOracle) (hit : MovieData) (seen : List String)
    (res : List MovieData)
    (hco : ∀ i d, o.byId i = FetchOutcome.ok d → d.imdbID = i)
    (hd : hit.imdbID ∉ seen)
    (h1 : (res.map fun m => m.imdbID).Nodup)
    (h2 : ∀ m ∈ res, m.imdbID ∈ seen) :
    ((detailStep o hit seen res).2.map fun m => m.imdbID).Nodup ∧
      ∀ m ∈ (detailStep o hit seen res).2, m.imdbID ∈ (detailStep o hit seen res).1 := by
  rcases hb : o.byId hit.imdbID with _ | _ | d
  · simp only [detailStep, hb]
    exact ⟨h1, h2⟩
  · simp only [detailStep, hb]
    exact ⟨h1, h2⟩
  · have hde : d.imdbID = hit.imdbID := hco _ _ hb
    simp only [detailStep, hb]
    by_cases hr : d.Response = "True"
    · rw [if_pos hr]
      constructor
      · simp only [List.map_append, List.map_cons, List.map_nil]
        rw [List.nodup_append]
        refine ⟨h1, List.nodup_singleton _, ?_⟩
        intro a ha hmem
        simp only [List.mem_singleton] at hmem
        subst hmem
        obtain ⟨m, hm, hmi⟩ := List.mem_map.1 ha
        exact hd (hde ▸ hmi ▸ h2 m hm)
      · intro m hm
        rcases List.mem_append.1 hm with hm | hm
        · exact List.mem_cons_of_mem _ (h2 m hm)
        · simp only [List.mem_singleton] at hm
          subst hm
          exact List.mem_cons_self _ _
    · rw [if_neg hr]
      exact ⟨h1, h2⟩

/-- The fallback loop preserves the dedup invariant, provided every
successful detail lookup echoes the queried id. -/
theorem detailLoop_inv (o : OmdbOracle)
    (hco : ∀ i d, o.byId i = FetchOutcome.ok d → d.imdbID = i)
    (hits : List MovieData) :
    ∀ (seen : List String) (res : List MovieData),
      (res.map fun m => m.imdbID).Nodup →
      (∀ m ∈ res, m.imdbID ∈ seen) →
      ((detailLoop o hits seen res).2.1.map fun m => m.imdbID).Nodup ∧
        ∀ m ∈ (detailLoop o hits seen res).2.1,
          m.imdbID ∈ (detailLoop o hits seen res).1 := by
  induction hits with
  | nil =>
    intro seen res h1 h2
    exact ⟨h1, h2⟩
  | cons hit rest ih =>
    intro seen res h1 h2
    by_cases hd : hit.imdbID ∈ seen
    · simpa [detailLoop, hd] using ih seen res h1 h2
    · have hs := detailStep_inv o hit seen res hco hd h1 h2
      have hr := ih (detailStep o hit seen res).1 (detailStep o hit seen res).2 hs.1 hs.2
      simpa [detailLoop, hd] using hr

/-- Distinct ids survive the poster filter and the year filter, and every
survivor of the poster filter has a present poster. -/
theorem final_invariant (res : List MovieData) (yf : String)
    (h : (res.map fun m => m.imdbID).Nodup) :
    ((filterMoviesByYear (res.filter fun m => m.Poster != "N/A") yf).map
        fun m => m.imdbID).Nodup ∧
      ∀ m ∈ filterMoviesByYear (res.filter fun m => m.Poster != "N/A") yf,
        m.Poster ≠ "N/A" := by
  have h1 : List.Sublist (filterMoviesByYear (res.filter fun m => m.Poster != "N/A") yf)
      (res.filter fun m => m.Poster != "N/A") := filterMoviesByYear_sublist _ _
  constructor
  · exact List.Nodup.sublist ((h1.trans (List.filter_sublist _)).map _) h
  · intro m hm
    have hm2 := h1.subset hm
    have hp := (List.mem_filter.1 hm2).2
    simpa [bne_iff_ne] using hp

/-- Every successful run of the truncated search yields pairwise-distinct ids
and present posters, provided detail lookups echo the queried id. -/
theorem trunc_ok_invariant (k : Bool) (o : OmdbOracle) (titles : List String)
    (input yf : String) (l : List MovieData)
    (hco : ∀ i d, o.byId i = FetchOutcome.ok d → d.imdbID = i)
    (h : (searchMoviesWithOMDbTruncated k o titles input yf).1 = Except.ok l) :
    (l.map fun m => m.imdbID).Nodup ∧ ∀ m ∈ l, m.Poster ≠ "N/A" := by
  have hinv := titleLoop_inv o titles [] [] (by simp) (by simp)
  simp only [searchMoviesWithOMDbTruncated] at h
  by_cases hk : k = false
  · rw [if_pos hk] at h
    simp at h
  · rw [if_neg hk] at h
    by_cases hl : (titleLoop o titles [] []).2.1.length = 0
    · rw [if_pos hl] at h
      rcases hs : o.search input with _ | _ | fd <;> simp only [hs] at h
      · simp at h
      · simp only [Except.ok.injEq] at h
        exact h ▸ final_invariant _ _ hinv.1
      · by_cases hr : fd.Response = "True"
        · rw [if_pos hr] at h
          rcases hse : fd.Search with _ | hits <;> simp only [hse] at h
          · simp only [Except.ok.injEq] at h
            exact h ▸ final_invariant _ _ hinv.1
          · simp only [Except.ok.injEq] at h
            have hdl := detailLoop_inv o hco hits (titleLoop o titles [] []).1
              (titleLoop o titles [] []).2.1 hinv.1 hinv.2
            exact h ▸ final_invariant _ _ hdl.1
        · rw [if_neg hr] at h
          simp only [Except.ok.injEq] at h
          exact h ▸ final_invariant _ _ hinv.1
    · rw [if_neg hl] at h
      simp only [Except.ok.injEq] at h
      exact h ▸ final_invariant _ _ hinv.1

/-- C1 counterexample: with title lookups failing, a keyword search returning
two hits with distinct ids, and a detail oracle answering both with the same
record, the run succeeds with two records sharing one id. -/
theorem search_result_invariant_counterexample :
    ¬ resultOkInvariant (searchMoviesWithOMDb true cexOracle [] "q" "all").1 := by
  intro hinv
  have hd := hinv [dupDetail, dupDetail] (by rfl)
  exact absurd hd.1 (by decide)

/-- C1 amended: every successful run returns pairwise-distinct ids and no
unavailable posters, provided every successful id-based detail lookup
returns a record carrying the queried id. -/
theorem search_result_invariant (k : Bool) (o : OmdbOracle) (titles : List String)
    (input yf : String) (l : List MovieData)
    (hco : ∀ i d, o.byId i = FetchOutcome.ok d → d.imdbID = i)
    (h : (searchMoviesWithOMDb k o titles input yf).1 = Except.ok l) :
    (l.map fun m => m.imdbID).Nodup ∧ ∀ m ∈ l, m.Poster ≠ "N/A" := by
  rw [search_eq_trunc] at h
  exact trunc_ok_invariant k o titles input yf l hco h

/-- C1 amended witness: a concrete run on the id-echoing oracle. -/
theorem search_result_invariant_witness :
    (([recZ].map fun m => m.imdbID).Nodup ∧ ∀ m ∈ [recZ], m.Poster ≠ "N/A") :=
  search_result_invariant true echoOracle ["A"] "q" "all" [recZ]
    (fun i d h => by
      simp only [echoOracle] at h
      injection h with h2
      rw [← h2])
    (by rfl)

/-- The title loop issues exactly one exact-title lookup per title, in order. -/
theorem titleLoop_calls (o : OmdbOracle) (ts : List String) :
    ∀ (seen : List String) (res : List MovieData),
      (titleLoop o ts seen res).2.2 = ts.map Call.titleLookup := by
  induction ts with
  | nil => intro seen res; rfl
  | cons t rest ih =>
    intro seen res
    simp [titleLoop, ih]

/-- The seen-set update of one fallback step, written the way the spec's
dedup rule reads. -/
theorem detailStep_seen (o : OmdbOracle) (hit : MovieData) (seen : List String)
    (res : List MovieData) :
    (detailStep o hit seen res).1 =
      (match o.byId hit.imdbID with
       | FetchOutcome.ok d => if d.Response = "True" then d.imdbID :: seen else seen
       | _ => seen) := by
  rcases hb : o.byId hit.imdbID with _ | _ | d <;> simp only [detailStep, hb]
  by_cases hr : d.Response = "True" <;> simp [hr]

/-- The fallback loop issues exactly the detail lookups the spec describes:
one per hit whose id is not already seen, under the same dedup rule. -/
theorem detailLoop_calls (o : OmdbOracle) (hits : List MovieData) :
    ∀ (seen : List String) (res : List MovieData),
      (detailLoop o hits seen res).2.2 =
        (fallbackSpecCalls o hits seen).map Call.detailLookup := by
  induction hits with
  | nil => intro seen res; rfl
  | cons hit rest ih =>
    intro seen res
    by_cases hd : hit.imdbID ∈ seen
    · simp [detailLoop, fallbackSpecCalls, hd, ih]
    · simp only [detailLoop, fallbackSpecCalls, if_neg hd, List.map_cons]
      rw [ih, detailStep_seen]

/-- The fallback loop keeps exactly the records `fallbackSpecKept`
describes, appended to the records it started with. -/
theorem detailLoop_kept (o : OmdbOracle) (hits : List MovieData) :
    ∀ (seen : List String) (res : List MovieData),
      (detailLoop o hits seen res).2.1 = res ++ fallbackSpecKept o hits seen := by
  induction hits with
  | nil => intro seen res; simp [detailLoop, fallbackSpecKept]
  | cons hit rest ih =>
    intro seen res
    by_cases hd : hit.imdbID ∈ seen
    · simp [detailLoop, fallbackSpecKept, hd, ih]
    · rcases hb : o.byId hit.imdbID with _ | _ | d
      · simp [detailLoop, fallbackSpecKept, hd, detailStep, hb, ih]
      · simp [detailLoop, fallbackSpecKept, hd, detailStep, hb, ih]
      · by_cases hr : d.Response = "True"
        · simp [detailLoop, fallbackSpecKept, hd, detailStep, hb, hr, ih]
        · simp [detailLoop, fallbackSpecKept, hd, detailStep, hb, hr, ih]

/-- Title lookups contribute nothing to the keyword-search count. -/
theorem keywordCount_title (ts : List String) :
    keywordCount (ts.map Call.titleLookup) = 0 := by
  induction ts with
  | nil => rfl
  | cons t rest ih => simp [keywordCount, List.countP_cons]

/-- Detail lookups contribute nothing to the keyword-search count. -/
theorem keywordCount_detail (ids : List String) :
    keywordCount (ids.map Call.detailLookup) = 0 := by
  induction ids with
  | nil => rfl
  | cons i rest ih => simp [keywordCount, List.countP_cons]

/-- The keyword-search count adds over concatenation. -/
theorem keywordCount_append (a b : List Call) :
    keywordCount (a ++ b) = keywordCount a + keywordCount b := by
  simp [keywordCount, List.countP_append]

/-- C4 counterexample: the fallback keep step does not apply step 5's
id-based dedup rule — on the concrete oracle that answers both unseen hits
with one record, the loop keeps two records with the same id. -/
theorem fallback_dedup_counterexample :
    (detailLoop cexOracle [hitA, hitB] [] []).2.1 = [dupDetail, dupDetail] ∧
      ¬ (((detailLoop cexOracle [hitA, hitB] [] []).2.1.map
        fun m => m.imdbID).Nodup) :=
  ⟨rfl, by decide⟩

/-- C4 amended: the keyword fallback runs exactly once iff the per-title
loop kept zero records; in that case the trace is one title lookup per
title, one keyword search on the raw mood text, and one detail lookup per
hit not already seen, and the run returns exactly the records
`fallbackSpecKept` describes (each resolvable detail record kept
unconditionally under the detail record's own id, with no keep-time
dedup check), poster-filtered and year-filtered. -/
theorem fallback_once_and_keep (o : OmdbOracle) (titles : List String)
    (input yf : String) :
    keywordCount (searchMoviesWithOMDb true o titles input yf).2 =
        (if (titleLoop o titles [] []).2.1 = [] then 1 else 0) ∧
      ((titleLoop o titles [] []).2.1 = [] →
        ∀ fd hits, o.search input = FetchOutcome.ok fd → fd.Response = "True" →
          fd.Search = some hits →
          (searchMoviesWithOMDb true o titles input yf).2 =
            titles.map Call.titleLookup ++ Call.keywordSearch input ::
              (fallbackSpecCalls o hits (titleLoop o titles [] []).1).map
                Call.detailLookup ∧
            (searchMoviesWithOMDb true o titles input yf).1 =
              Except.ok (filterMoviesByYear
                ((fallbackSpecKept o hits (titleLoop o titles [] []).1).filter
                  fun m => m.Poster != "N/A") yf)) := by
  rw [search_eq_trunc]
  simp only [searchMoviesWithOMDbTruncated]
  rw [if_neg (by decide : ¬ (true = false))]
  by_cases hl : (titleLoop o titles [] []).2.1.length = 0
  · have hl' : (titleLoop o titles [] []).2.1 = [] := List.length_eq_zero.1 hl
    rw [if_pos hl]
    constructor
    · rw [if_pos hl']
      rcases hs : o.search input with _ | _ | fd <;> simp only [hs]
      · rw [keywordCount_append, titleLoop_calls, keywordCount_title]
        rfl
      · rw [keywordCount_append, titleLoop_calls, keywordCount_title]
        rfl
      · by_cases hr : fd.Response = "True"
        · rw [if_pos hr]
          rcases hse : fd.Search with _ | hits <;> simp only [hse]
          · rw [keywordCount_append, titleLoop_calls, keywordCount_title]
            rfl
          · rw [keywordCount_append, titleLoop_calls, keywordCount_title,
              detailLoop_calls]
            simp [keywordCount, List.countP_cons, keywordCount_detail]
        · rw [if_neg hr]
          rw [keywordCount_append, titleLoop_calls, keywordCount_title]
          rfl
    · intro h0 fd hits hsearch hresp hSearch
      simp only [hsearch, if_pos hresp, hSearch]
      refine ⟨?_, ?_⟩
      · rw [titleLoop_calls, detailLoop_calls]
      · rw [detailLoop_kept, h0, List.nil_append]
  · rw [if_neg hl]
    have hne : ¬ (titleLoop o titles [] []).2.1 = [] := by
      intro h0
      exact hl (by rw [h0]; rfl)
    constructor
    · rw [if_neg hne, titleLoop_calls, keywordCount_title]
    · intro h0
      exact absurd h0 hne

/-- C4 amended witness: on the concrete fallback oracle the keyword search
runs once, the trace is keyword search then two detail lookups, and the
kept records are exactly those of the spec-modelled keep rule. -/
theorem fallback_once_and_keep_witness :
    keywordCount (searchMoviesWithOMDb true cexOracle [] "q" "all").2 = 1 ∧
      ((searchMoviesWithOMDb true cexOracle [] "q" "all").2 =
        ([] : List String).map Call.titleLookup ++ Call.keywordSearch "q" ::
          (fallbackSpecCalls cexOracle [hitA, hitB]
            (titleLoop cexOracle [] [] []).1).map Call.detailLookup ∧
        (searchMoviesWithOMDb true cexOracle [] "q" "all").1 =
          Except.ok (filterMoviesByYear
            ((fallbackSpecKept cexOracle [hitA, hitB]
              (titleLoop cexOracle [] [] []).1).filter
              fun m => m.Poster != "N/A") "all")) := by
  have h := fallback_once_and_keep cexOracle [] "q" "all"
  refine ⟨?_, ?_⟩
  · have h1 := h.1
    rwa [if_pos (by rfl)] at h1
  · exact h.2 (by rfl) { Response := "True", Search := some [hitA, hitB] }
      [hitA, hitB] (by rfl) (by rfl) (by rfl)

/-- C3: when the Gemini response has a non-success status or an empty or
absent text payload, `getAiSuggestions` throws an upstream error, and the
run invokes no metadata search and issues no metadata calls. -/
theorem upstream_error_no_metadata_calls (s : AppState) (omdbKey : Bool)
    (g : GeminiOutcome) (o : OmdbOracle)
    (hv : jsTrim s.userInput ≠ "")
    (hg : g = GeminiOutcome.notOk ∨ g = GeminiOutcome.ok none ∨
      g = GeminiOutcome.ok (some "")) :
    (∃ m, getAiSuggestions true g = Except.error m) ∧
      (handleMovieSuggestion s true omdbKey g o).2.searchInvoked = false ∧
      (handleMovieSuggestion s true omdbKey g o).2.omdbCalls = [] := by
  have he : ∃ m, getAiSuggestions true g = Except.error m := by
    rcases hg with rfl | rfl | rfl
    · exact ⟨geminiHttpError, rfl⟩
    · exact ⟨geminiEmptyError, rfl⟩
    · exact ⟨geminiEmptyError, rfl⟩
  refine ⟨he, ?_⟩
  obtain ⟨m, hm⟩ := he
  simp only [handleMovieSuggestion, if_neg hv, hm]
  exact ⟨trivial, trivial⟩

/-- C3 witness: a non-success Gemini status on a concrete state. -/
theorem upstream_error_no_metadata_calls_witness :
    (∃ m, getAiSuggestions true GeminiOutcome.notOk = Except.error m) ∧
      (handleMovieSuggestion stateHappy true true GeminiOutcome.notOk
        nullOracle).2.searchInvoked = false ∧
      (handleMovieSuggestion stateHappy true true GeminiOutcome.notOk
        nullOracle).2.omdbCalls = [] :=
  upstream_error_no_metadata_calls stateHappy true GeminiOutcome.notOk nullOracle
    (by decide) (Or.inl rfl)

/-- C7: whenever an error propagates out of the pipeline on a non-blank
input, the resulting state shows an error and an empty movie list — the
list was cleared at the start of the request and never repopulated. -/
theorem no_partial_results_on_error (s : AppState) (gemKey omdbKey : Bool)
    (g : GeminiOutcome) (o : OmdbOracle)
    (hv : jsTrim s.userInput ≠ "")
    (he : pipelineError s gemKey omdbKey g o) :
    (handleMovieSuggestion s gemKey omdbKey g o).1.movies = [] ∧
      (handleMovieSuggestion s gemKey omdbKey g o).1.error.isSome = true := by
  rcases he with ⟨m, hm⟩ | ⟨ts, hts, m, hm⟩
  · simp only [handleMovieSuggestion, if_neg hv, hm]
    exact ⟨trivial, rfl⟩
  · simp only [handleMovieSuggestion, if_neg hv, hts, hm]
    exact ⟨trivial, rfl⟩

/-- C7 witness: a missing Gemini key propagates an error; the prior movie
list is cleared. -/
theorem no_partial_results_on_error_witness :
    (handleMovieSuggestion statePrior false true GeminiOutcome.notOk
        nullOracle).1.movies = [] ∧
      (handleMovieSuggestion statePrior false true GeminiOutcome.notOk
        nullOracle).1.error.isSome = true :=
  no_partial_results_on_error statePrior false true GeminiOutcome.notOk nullOracle
    (by decide) (Or.inl ⟨geminiKeyError, rfl⟩)

/-- A string made of whitespace only trims to the empty string. -/
theorem all_whitespace_trim (s : String)
    (h : s.data.all jsStrWhitespace = true) : jsTrim s = "" := by
  unfold jsTrim
  have hd : s.data.dropWhile jsStrWhitespace = [] := by
    rw [List.dropWhile_eq_nil_iff]
    exact fun x hx => List.all_eq_true.1 h x hx
  rw [hd]
  rfl

/-- C10: whitespace-only (or empty) input is rejected by validation: the
run only sets the validation error, leaves `movies` and `isLoading`
untouched, and issues no network call at all. -/
theorem whitespace_input_rejected (s : AppState) (gemKey omdbKey : Bool)
    (g : GeminiOutcome) (o : OmdbOracle)
    (h : s.userInput.data.all jsStrWhitespace = true) :
    handleMovieSuggestion s gemKey omdbKey g o =
      ({ s with error := some validationError },
       { geminiCalled := false, searchInvoked := false, omdbCalls := [] }) := by
  unfold handleMovieSuggestion
  rw [if_pos (all_whitespace_trim _ h)]

/-- C10 witness: a concrete whitespace-only submission with movies shown and
the loading flag set beforehand. -/
theorem whitespace_input_rejected_witness :
    handleMovieSuggestion stateBlank true true (GeminiOutcome.ok (some "Up"))
        echoOracle =
      ({ stateBlank with error := some validationError },
       { geminiCalled := false, searchInvoked := false, omdbCalls := [] }) :=
  whitespace_input_rejected stateBlank true true (GeminiOutcome.ok (some "Up"))
    echoOracle (by decide)

end Poper
